import Mathlib

/-!
# BrewOS Home Assistant integration — verified model of the device-state coordinator

Shallow embedding of `custom_components/brewos/coordinator.py`,
`const.py`, `select.py` and `binary_sensor.py`.

Modelling choices:
* Python values that can appear in the coordinator's `self.data` dict or in a
  decoded JSON payload are the inductive `PyVal`.  JSON numbers (Python
  `int`/`float`) are modelled as `Int` and `Rat`; `Rat` represents every decimal
  literal exactly.
* `json.loads` is library code, outside the repository: an inbound message is
  modelled as `Option (List (String × PyVal))`, where `none` stands for a raw
  payload on which `json.loads` raises `JSONDecodeError`, and `some kvs` stands
  for a payload that parses to the JSON object with fields `kvs`.
* Python's `float(x)` / `int(x)` builtins are modelled by `pyFloatFn` /
  `pyIntFn`: they succeed on numbers and booleans, raise `ValueError` on
  unparsable strings, and raise `TypeError` on `None` (as CPython does).
* A Python dict is modelled as the function `String → Option PyVal`;
  `dict.update` is `dictUpdate`, key-by-key assignment in list order.
-/

/-- A Python value as it occurs in the coordinator's data dict or in a decoded
JSON payload. -/
inductive PyVal where
  | pyNone : PyVal
  | pyBool (b : Bool) : PyVal
  | pyInt (n : Int) : PyVal
  | pyFloat (q : Rat) : PyVal
  | pyStr (s : String) : PyVal
deriving DecidableEq, Repr

/-- The Python exceptions reachable in the message handlers. -/
inductive PyErr where
  | jsonDecodeError : PyErr
  | valueError : PyErr
  | typeError : PyErr
deriving DecidableEq, Repr

/-- Numeric value of a list of decimal digit characters. -/
def digitsToNat (ds : List Char) : Nat :=
  ds.foldl (fun acc c => acc * 10 + (c.toNat - 48)) 0

/-- Strip surrounding whitespace, as Python's numeric constructors do. -/
def stripWhitespace (cs : List Char) : List Char :=
  ((cs.dropWhile Char.isWhitespace).reverse.dropWhile Char.isWhitespace).reverse

/-- Parse an unsigned decimal literal (`"92"`, `"92.1"`, `".5"`, `"7."`),
as accepted by Python's `float`: the value is
(integer-and-fraction digits) / 10 ^ (number of fraction digits). -/
def parseUnsignedDecimal (cs : List Char) : Option Rat :=
  let intPart := cs.takeWhile Char.isDigit
  let rest := cs.dropWhile Char.isDigit
  match rest with
  | [] => if intPart.isEmpty then none else some (mkRat (digitsToNat intPart : Int) 1)
  | c :: fracPart =>
      if c = '.' ∧ fracPart.all Char.isDigit ∧ (intPart ≠ [] ∨ fracPart ≠ []) then
        some (mkRat (digitsToNat (intPart ++ fracPart) : Int) (10 ^ fracPart.length))
      else none

/-- Python `float(s)` on a string: optional sign around a decimal literal,
surrounding whitespace stripped.  `none` models a `ValueError`. -/
def parsePyFloatString (s : String) : Option Rat :=
  match stripWhitespace s.toList with
  | '-' :: rest => (parseUnsignedDecimal rest).map Neg.neg
  | '+' :: rest => parseUnsignedDecimal rest
  | cs => parseUnsignedDecimal cs

/-- Python `int(s)` on a string: optional sign and decimal digits only
(`int("3.5")` raises `ValueError`). -/
def parsePyIntString (s : String) : Option Int :=
  match stripWhitespace s.toList with
  | '-' :: rest =>
      if rest ≠ [] ∧ rest.all Char.isDigit then some (-(digitsToNat rest : Int)) else none
  | '+' :: rest =>
      if rest ≠ [] ∧ rest.all Char.isDigit then some ((digitsToNat rest : Int)) else none
  | cs => if cs ≠ [] ∧ cs.all Char.isDigit then some ((digitsToNat cs : Int)) else none

/-- Truncation toward zero, the rounding of Python's `int(float)`. -/
def pythonTrunc (q : Rat) : Int :=
  if 0 ≤ q then ⌊q⌋ else ⌈q⌉

/-- Python's `float(x)` builtin on a decoded JSON value: numbers and booleans
convert, strings are parsed (`ValueError` on failure), `None` raises
`TypeError`. -/
def pyFloatFn : PyVal → Except PyErr Rat
  | PyVal.pyBool b => Except.ok (mkRat (if b then 1 else 0) 1)
  | PyVal.pyInt n => Except.ok (mkRat n 1)
  | PyVal.pyFloat q => Except.ok q
  | PyVal.pyStr s =>
      match parsePyFloatString s with
      | some q => Except.ok q
      | none => Except.error PyErr.valueError
  | PyVal.pyNone => Except.error PyErr.typeError

/-- Python's `int(x)` builtin on a decoded JSON value. -/
def pyIntFn : PyVal → Except PyErr Int
  | PyVal.pyBool b => Except.ok (if b then 1 else 0)
  | PyVal.pyInt n => Except.ok n
  | PyVal.pyFloat q => Except.ok (pythonTrunc q)
  | PyVal.pyStr s =>
      match parsePyIntString s with
      | some n => Except.ok n
      | none => Except.error PyErr.valueError
  | PyVal.pyNone => Except.error PyErr.typeError

/-- The coordinator's `self.data` dict: a total map from key to optional
value (`none` = key absent). -/
def DeviceState : Type := String → Option PyVal

/-- The empty dict. -/
def emptyState : DeviceState := fun _ => none

/-- Python `d[k] = v`. -/
def setKey (d : DeviceState) (k : String) (v : PyVal) : DeviceState :=
  fun q => if q = k then some v else d q

/-- Python `d.update(us)`: assign each pair in order (a later duplicate key
wins, as in a Python dict literal / update). -/
def dictUpdate (d : DeviceState) : List (String × PyVal) → DeviceState
  | [] => d
  | kv :: rest => dictUpdate (setKey d kv.1 kv.2) rest

/-- The value the key ends up with after `dictUpdate` if the list mentions it:
the last binding of `k` in `us`. -/
def lastLookup : List (String × PyVal) → String → Option PyVal
  | [], _ => none
  | kv :: rest, k =>
      match lastLookup rest k with
      | some v => some v
      | none => if kv.1 = k then some kv.2 else none

/-- Python `payload.get(k, default)` on a decoded JSON object (first binding
wins, as in a parsed JSON object without duplicate keys). -/
def payloadGet (p : List (String × PyVal)) (k : String) (default : PyVal) : PyVal :=
  match p with
  | [] => default
  | kv :: rest => if kv.1 = k then kv.2 else payloadGet rest k default

/-- The per-field conversion a handler applies to `payload.get(...)`:
stored raw, or through Python `float(...)` / `int(...)`. -/
inductive Conv where
  | passthrough : Conv
  | toFloat : Conv
  | toInt : Conv
deriving DecidableEq, Repr

/-- Run a conversion; the result is the `PyVal` stored into the data dict. -/
def applyConv : Conv → PyVal → Except PyErr PyVal
  | Conv.passthrough, v => Except.ok v
  | Conv.toFloat, v => (pyFloatFn v).map PyVal.pyFloat
  | Conv.toInt, v => (pyIntFn v).map PyVal.pyInt

/-- One entry of a handler's update-dict literal: target key, default used by
`payload.get`, and the conversion wrapped around it. -/
structure FieldSpec where
  key : String
  dfl : PyVal
  conv : Conv
deriving DecidableEq, Repr

/-- Evaluate a handler's update-dict literal field by field, in source order:
the first conversion that raises aborts the whole dict (nothing is merged). -/
def decodeFields : List FieldSpec → List (String × PyVal) → Except PyErr (List (String × PyVal))
  | [], _ => Except.ok []
  | fs :: rest, p =>
      match applyConv fs.conv (payloadGet p fs.key fs.dfl) with
      | Except.error e => Except.error e
      | Except.ok v =>
          match decodeFields rest p with
          | Except.error e => Except.error e
          | Except.ok us => Except.ok ((fs.key, v) :: us)

/-! ## The four stream decoders (`coordinator.py`) -/

/-- The update-dict literal of `_handle_status_message`
(`coordinator.py` lines 139–160), field by field in source order. -/
def statusSpec : List FieldSpec :=
  [ ⟨"state", PyVal.pyStr "standby", Conv.passthrough⟩,
    ⟨"mode", PyVal.pyStr "standby", Conv.passthrough⟩,
    ⟨"heating_strategy", PyVal.pyInt 1, Conv.toInt⟩,
    ⟨"brew_temp", PyVal.pyInt 0, Conv.toFloat⟩,
    ⟨"brew_setpoint", PyVal.pyFloat (mkRat 935 10), Conv.toFloat⟩,
    ⟨"steam_temp", PyVal.pyInt 0, Conv.toFloat⟩,
    ⟨"steam_setpoint", PyVal.pyFloat (mkRat 145 1), Conv.toFloat⟩,
    ⟨"pressure", PyVal.pyInt 0, Conv.toFloat⟩,
    ⟨"scale_weight", PyVal.pyInt 0, Conv.toFloat⟩,
    ⟨"flow_rate", PyVal.pyInt 0, Conv.toFloat⟩,
    ⟨"shot_duration", PyVal.pyInt 0, Conv.toFloat⟩,
    ⟨"shot_weight", PyVal.pyInt 0, Conv.toFloat⟩,
    ⟨"target_weight", PyVal.pyFloat (mkRat 36 1), Conv.toFloat⟩,
    ⟨"is_brewing", PyVal.pyBool false, Conv.passthrough⟩,
    ⟨"is_heating", PyVal.pyBool false, Conv.passthrough⟩,
    ⟨"water_low", PyVal.pyBool false, Conv.passthrough⟩,
    ⟨"alarm_active", PyVal.pyBool false, Conv.passthrough⟩,
    ⟨"pico_connected", PyVal.pyBool false, Conv.passthrough⟩,
    ⟨"wifi_connected", PyVal.pyBool true, Conv.passthrough⟩,
    ⟨"scale_connected", PyVal.pyBool false, Conv.passthrough⟩ ]

/-- The update-dict literal of `_handle_power_message`
(`coordinator.py` lines 173–180). -/
def powerSpec : List FieldSpec :=
  [ ⟨"power", PyVal.pyInt 0, Conv.toFloat⟩,
    ⟨"voltage", PyVal.pyInt 0, Conv.toFloat⟩,
    ⟨"current", PyVal.pyInt 0, Conv.toFloat⟩,
    ⟨"energy_import", PyVal.pyInt 0, Conv.toFloat⟩,
    ⟨"frequency", PyVal.pyInt 0, Conv.toFloat⟩,
    ⟨"power_factor", PyVal.pyInt 0, Conv.toFloat⟩ ]

/-- The update-dict literal of `_handle_statistics_message`
(`coordinator.py` lines 193–197). -/
def statisticsSpec : List FieldSpec :=
  [ ⟨"shots_today", PyVal.pyInt 0, Conv.toInt⟩,
    ⟨"total_shots", PyVal.pyInt 0, Conv.toInt⟩,
    ⟨"kwh_today", PyVal.pyInt 0, Conv.toFloat⟩ ]

/-- The keys a stream's update dict writes. -/
def specKeys (spec : List FieldSpec) : List String := spec.map FieldSpec.key

/-- `json.loads` plus the update-dict literal of one JSON-stream handler:
`Except.error` is the exception reaching the handler's `try` body. -/
def streamDecode (spec : List FieldSpec) (msg : Option (List (String × PyVal))) :
    Except PyErr (List (String × PyVal)) :=
  match msg with
  | none => Except.error PyErr.jsonDecodeError
  | some p => decodeFields spec p

/-- What one call of a JSON-stream message handler did: the data dict
afterwards, the exception propagated to the caller (if any), and whether the
handler logged a parse error. -/
structure HandlerOutcome where
  data : DeviceState
  raised : Option PyErr
  logged : Bool

/-- Whether the handlers' clause `except (json.JSONDecodeError, ValueError)`
catches the exception. -/
def caughtByHandler : PyErr → Bool
  | PyErr.jsonDecodeError => true
  | PyErr.valueError => true
  | PyErr.typeError => false

/-- One JSON-stream handler (`_handle_status_message` and its two siblings):
decode, on success `self.data.update(...)`; `except (json.JSONDecodeError,
ValueError)` logs, any other exception propagates. -/
def handleStream (spec : List FieldSpec) (msg : Option (List (String × PyVal)))
    (d : DeviceState) : HandlerOutcome :=
  match streamDecode spec msg with
  | Except.ok us => ⟨dictUpdate d us, none, false⟩
  | Except.error e =>
      if caughtByHandler e then ⟨d, none, true⟩
      else ⟨d, some e, false⟩

/-- `_handle_status_message` (`coordinator.py` lines 132–165). -/
def handleStatusMessage : Option (List (String × PyVal)) → DeviceState → HandlerOutcome :=
  handleStream statusSpec

/-- `_handle_power_message` (`coordinator.py` lines 167–185). -/
def handlePowerMessage : Option (List (String × PyVal)) → DeviceState → HandlerOutcome :=
  handleStream powerSpec

/-- `_handle_statistics_message` (`coordinator.py` lines 187–202). -/
def handleStatisticsMessage : Option (List (String × PyVal)) → DeviceState → HandlerOutcome :=
  handleStream statisticsSpec

/-! ## Coordinator state and construction -/

/-- The mutable coordinator state: the dedicated `_available` flag and the
`self.data` snapshot dict. -/
structure Coordinator where
  avail : Bool
  data : DeviceState

/-- The data-dict literal of `BrewOSCoordinator.__init__`
(`coordinator.py` lines 44–74), in source order. -/
def initFields : List (String × PyVal) :=
  [ ("state", PyVal.pyStr "standby"),
    ("mode", PyVal.pyStr "standby"),
    ("heating_strategy", PyVal.pyInt 1),
    ("brew_temp", PyVal.pyFloat (mkRat 0 1)),
    ("brew_setpoint", PyVal.pyFloat (mkRat 935 10)),
    ("steam_temp", PyVal.pyFloat (mkRat 0 1)),
    ("steam_setpoint", PyVal.pyFloat (mkRat 145 1)),
    ("pressure", PyVal.pyFloat (mkRat 0 1)),
    ("scale_weight", PyVal.pyFloat (mkRat 0 1)),
    ("flow_rate", PyVal.pyFloat (mkRat 0 1)),
    ("shot_duration", PyVal.pyFloat (mkRat 0 1)),
    ("shot_weight", PyVal.pyFloat (mkRat 0 1)),
    ("target_weight", PyVal.pyFloat (mkRat 36 1)),
    ("is_brewing", PyVal.pyBool false),
    ("is_heating", PyVal.pyBool false),
    ("water_low", PyVal.pyBool false),
    ("alarm_active", PyVal.pyBool false),
    ("pico_connected", PyVal.pyBool false),
    ("wifi_connected", PyVal.pyBool true),
    ("scale_connected", PyVal.pyBool false),
    ("shots_today", PyVal.pyInt 0),
    ("total_shots", PyVal.pyInt 0),
    ("kwh_today", PyVal.pyFloat (mkRat 0 1)),
    ("power", PyVal.pyInt 0),
    ("voltage", PyVal.pyInt 0),
    ("current", PyVal.pyInt 0),
    ("available", PyVal.pyBool false),
    ("sw_version", PyVal.pyStr "unknown") ]

/-- The keys initialized at construction time. -/
def initKeys : List String := initFields.map Prod.fst

/-- `self.data` right after `__init__`. -/
def initData : DeviceState := dictUpdate emptyState initFields

/-- The coordinator right after `__init__`: `_available = False` and the
default data dict. -/
def initCoordinator : Coordinator := ⟨false, initData⟩

/-- `_handle_availability_message` (`coordinator.py` lines 204–210): the flag
is the exact string comparison `payload == "online"`, mirrored into
`self.data["available"]`. -/
def handleAvailabilityMessage (payload : String) (c : Coordinator) : Coordinator :=
  let a := payload = "online"
  ⟨a, setKey c.data "available" (PyVal.pyBool a)⟩

/-- One inbound event processed by the coordinator (command sends carry no
state change; they are included so invariants quantify over them too). -/
inductive Op where
  | status (msg : Option (List (String × PyVal))) : Op
  | power (msg : Option (List (String × PyVal))) : Op
  | statistics (msg : Option (List (String × PyVal))) : Op
  | availability (payload : String) : Op
  | command (c : String) (params : List (String × PyVal)) : Op

/-- The coordinator state after processing one event. -/
def stepOp (c : Coordinator) : Op → Coordinator
  | Op.status m => ⟨c.avail, (handleStatusMessage m c.data).data⟩
  | Op.power m => ⟨c.avail, (handlePowerMessage m c.data).data⟩
  | Op.statistics m => ⟨c.avail, (handleStatisticsMessage m c.data).data⟩
  | Op.availability s => handleAvailabilityMessage s c
  | Op.command _ _ => c

/-- The coordinator state after a sequence of events. -/
def runOps (c : Coordinator) : List Op → Coordinator
  | [] => c
  | op :: rest => runOps (stepOp c op) rest

/-! ## Topic router, command encoder, derived views -/

/-- `_build_topic` (`coordinator.py` lines 76–80); Python's truthiness test on
`self.device_id` is the non-empty test for a string. -/
def buildTopic (pfx devId suffix : String) : String :=
  if devId ≠ "" then pfx ++ "/" ++ devId ++ "/" ++ suffix else pfx ++ "/" ++ suffix

/-- The body dict of `async_send_command` (`coordinator.py` line 219):
the Python dict literal `\x7b"cmd": command, **kwargs\x7d`, built by inserting
`"cmd"` first and then every keyword argument in order. -/
def encodeCommand (command : String) (params : List (String × PyVal)) : DeviceState :=
  dictUpdate (setKey emptyState "cmd" (PyVal.pyStr command)) params

/-- `STRATEGY_VALUE_MAP` (`const.py` lines 65–70): code → name. -/
def strategyValueMap (n : Int) : Option String :=
  if n = 0 then some "brew_only"
  else if n = 1 then some "sequential"
  else if n = 2 then some "parallel"
  else if n = 3 then some "smart_stagger"
  else none

/-- `STRATEGY_NAME_MAP` (`const.py` lines 72–77): name → code. -/
def strategyNameMap (s : String) : Option Int :=
  if s = "brew_only" then some 0
  else if s = "sequential" then some 1
  else if s = "parallel" then some 2
  else if s = "smart_stagger" then some 3
  else none

/-- `STRATEGY_VALUE_MAP.get(value, "sequential")` (`select.py` line 97). -/
def strategyOptionOfCode (n : Int) : String :=
  (strategyValueMap n).getD "sequential"

/-- `STRATEGY_NAME_MAP.get(option, 1)` (`select.py` line 107). -/
def strategyCodeOfName (s : String) : Int :=
  (strategyNameMap s).getD 1

/-- Python truthiness of an optional dict value, for `value or MODE_STANDBY`
(`select.py` line 99): `None`, `False`, `0`, `0.0`, `""` are falsy. -/
def pyTruthy : Option PyVal → Bool
  | none => false
  | some PyVal.pyNone => false
  | some (PyVal.pyBool b) => b
  | some (PyVal.pyInt n) => n ≠ 0
  | some (PyVal.pyFloat q) => q ≠ 0
  | some (PyVal.pyStr s) => s ≠ ""

/-- `BrewOSSelect.current_option` (`select.py` lines 89–99) for the
heating-strategy select: an `int` value (Python `bool` is a subclass of `int`,
and `True == 1` / `False == 0` as dict keys) goes through
`STRATEGY_VALUE_MAP.get(value, "sequential")`; anything else falls through to
`value or MODE_STANDBY`. -/
def currentStrategyOption (d : DeviceState) : PyVal :=
  match d "heating_strategy" with
  | some (PyVal.pyInt n) => PyVal.pyStr (strategyOptionOfCode n)
  | some (PyVal.pyBool b) => PyVal.pyStr (strategyOptionOfCode (if b then 1 else 0))
  | v => if pyTruthy v then v.getD PyVal.pyNone else PyVal.pyStr "standby"

/-- `BrewOSBinarySensor.is_on` for the `ready` sensor (`binary_sensor.py`
lines 107–116): `self.coordinator.data.get("state") == "ready"`. -/
def isReady (d : DeviceState) : Bool :=
  match d "state" with
  | some (PyVal.pyStr s) => s = "ready"
  | _ => false

/-- What one outbound publish consists of: its topic and its body dict. -/
structure Published where
  topic : String
  body : DeviceState

/-- `async_send_command` (`coordinator.py` lines 217–229): body dict and the
routed `command` topic. -/
def sendCommand (pfx devId command : String) (params : List (String × PyVal)) : Published :=
  ⟨buildTopic pfx devId "command", encodeCommand command params⟩

/-- `BrewOSSelect.async_select_option` for the heating-strategy select
(`select.py` lines 101–110): encode the option via `STRATEGY_NAME_MAP.get(option, 1)`
and send `set_heating_strategy` with the `strategy` parameter. -/
def selectStrategyOption (pfx devId option : String) : Published :=
  sendCommand pfx devId "set_heating_strategy"
    [("strategy", PyVal.pyInt (strategyCodeOfName option))]

/-- The data-dict keys each inbound event can write. -/
def opKeys : Op → List String
  | Op.status _ => specKeys statusSpec
  | Op.power _ => specKeys powerSpec
  | Op.statistics _ => specKeys statisticsSpec
  | Op.availability _ => ["available"]
  | Op.command _ _ => []

/-- The three keys the power handler writes that `__init__` does not
initialize. -/
def powerOnlyKeys : List String := ["energy_import", "frequency", "power_factor"]

/-- Every key any event can ever write or that exists at construction. -/
def allowedKeys : List String := initKeys ++ powerOnlyKeys

/-- The status payload of end-to-end scenario 1:
`\x7b"state": "ready", "brew_temp": 92.1\x7d` (92.1 = 921/10). -/
def scenarioStatusMsg : Option (List (String × PyVal)) :=
  some [("state", PyVal.pyStr "ready"), ("brew_temp", PyVal.pyFloat (mkRat 921 10))]

/-- A prior snapshot whose brew setpoint was moved to 95.0. -/
def priorState95 : DeviceState :=
  setKey initData "brew_setpoint" (PyVal.pyFloat (mkRat 95 1))

/-- A status payload whose `brew_temp` is the non-numeric string "hot". -/
def nonNumericStatusMsg : Option (List (String × PyVal)) :=
  some [("brew_temp", PyVal.pyStr "hot")]

/-- A status payload whose `brew_temp` is JSON `null`. -/
def nullStatusMsg : Option (List (String × PyVal)) :=
  some [("brew_temp", PyVal.pyNone)]

/-- A snapshot whose stored heating-strategy code is the unknown 99. -/
def unknownStrategyState : DeviceState :=
  setKey initData "heating_strategy" (PyVal.pyInt 99)

/-- The parameters of a `set_temp` command (93.0 degrees on the brew boiler). -/
def tempParams : List (String × PyVal) :=
  [("temp", PyVal.pyFloat (mkRat 93 1)), ("boiler", PyVal.pyStr "brew")]

/-! ## Generic lemmas about the dict model and the decoders -/

/-- A `dictUpdate` at key `k` yields the last binding of `k` in the update
list, or the previous value when the list does not mention `k`. -/
theorem dictUpdate_lookup : ∀ (us : List (String × PyVal)) (d : DeviceState) (k : String),
    dictUpdate d us k = (lastLookup us k).elim (d k) some := by
  intro us
  induction us with
  | nil => intro d k; rfl
  | cons kv rest ih =>
      intro d k
      show dictUpdate (setKey d kv.1 kv.2) rest k = _
      rw [ih]
      cases h : lastLookup rest k with
      | some v => simp [lastLookup, h]
      | none =>
          simp only [lastLookup, h, Option.elim]
          by_cases hk : kv.1 = k
          · subst hk; simp [setKey]
          · rw [if_neg hk]
            simp only [Option.elim]
            show (if k = kv.1 then some kv.2 else d k) = d k
            exact if_neg (fun h2 => hk h2.symm)

/-- An update list that does not mention `k` has no last binding for it. -/
theorem lastLookup_eq_none : ∀ (us : List (String × PyVal)) (k : String),
    k ∉ us.map Prod.fst → lastLookup us k = none := by
  intro us
  induction us with
  | nil => intro k _; rfl
  | cons kv rest ih =>
      intro k hk
      simp only [List.map, List.mem_cons] at hk
      push_neg at hk
      show (match lastLookup rest k with
            | some v => some v
            | none => if kv.1 = k then some kv.2 else none) = none
      rw [ih k hk.2]
      exact if_neg (fun h2 => hk.1 h2.symm)

/-- A last binding can only exist for a mentioned key. -/
theorem lastLookup_mem : ∀ (us : List (String × PyVal)) (k : String) (v : PyVal),
    lastLookup us k = some v → k ∈ us.map Prod.fst := by
  intro us
  induction us with
  | nil => intro k v h; exact absurd h (by simp [lastLookup])
  | cons kv rest ih =>
      intro k v h
      simp only [lastLookup] at h
      cases hr : lastLookup rest k with
      | some w =>
          exact List.mem_cons_of_mem _ (ih k w hr)
      | none =>
          rw [hr] at h
          by_cases hk : kv.1 = k
          · simp [hk]
          · rw [if_neg hk] at h; exact absurd h (by simp)

/-- Merging a list that does not mention `k` leaves `k` unchanged. -/
theorem dictUpdate_notMem (us : List (String × PyVal)) (d : DeviceState) (k : String)
    (hk : k ∉ us.map Prod.fst) : dictUpdate d us k = d k := by
  rw [dictUpdate_lookup, lastLookup_eq_none us k hk]
  rfl

/-- After any merge, a key is either untouched or mentioned by the update list
and bound to some value. -/
theorem dictUpdate_cases (us : List (String × PyVal)) (d : DeviceState) (k : String) :
    dictUpdate d us k = d k ∨
      (k ∈ us.map Prod.fst ∧ ∃ v, dictUpdate d us k = some v) := by
  rw [dictUpdate_lookup]
  cases h : lastLookup us k with
  | none => exact Or.inl rfl
  | some v => exact Or.inr ⟨lastLookup_mem us k v h, v, rfl⟩

/-- A successful decode produces exactly the stream's own keys, in source
order, whatever the payload contained. -/
theorem decodeFields_ok_keys : ∀ (spec : List FieldSpec) (p : List (String × PyVal))
    (us : List (String × PyVal)), decodeFields spec p = Except.ok us →
    us.map Prod.fst = specKeys spec := by
  intro spec
  induction spec with
  | nil =>
      intro p us h
      simp only [decodeFields] at h
      cases h
      rfl
  | cons fs rest ih =>
      intro p us h
      simp only [decodeFields] at h
      cases hc : applyConv fs.conv (payloadGet p fs.key fs.dfl) with
      | error e => rw [hc] at h; exact absurd h (by simp)
      | ok v =>
          rw [hc] at h
          cases hr : decodeFields rest p with
          | error e => rw [hr] at h; exact absurd h (by simp)
          | ok us2 =>
              rw [hr] at h
              cases h
              simp only [List.map, specKeys]
              rw [show us2.map Prod.fst = specKeys rest from ih p us2 hr]
              rfl

/-- A stream handler never touches a key outside the stream's update-dict
literal: neither a successful merge nor a decode failure changes it. -/
theorem handleStream_frame (spec : List FieldSpec) (msg : Option (List (String × PyVal)))
    (d : DeviceState) (k : String) (hk : k ∉ specKeys spec) :
    (handleStream spec msg d).data k = d k := by
  cases msg with
  | none => rfl
  | some p =>
      simp only [handleStream, streamDecode]
      cases h : decodeFields spec p with
      | error e => cases e <;> rfl
      | ok us =>
          show dictUpdate d us k = d k
          exact dictUpdate_notMem us d k (by rw [decodeFields_ok_keys spec p us h]; exact hk)

/-- A stream handler leaves a key unchanged or writes one of the stream's own
keys to some value. -/
theorem handleStream_cases (spec : List FieldSpec) (msg : Option (List (String × PyVal)))
    (d : DeviceState) (k : String) :
    (handleStream spec msg d).data k = d k ∨
      (k ∈ specKeys spec ∧ ∃ v, (handleStream spec msg d).data k = some v) := by
  cases msg with
  | none => exact Or.inl rfl
  | some p =>
      simp only [handleStream, streamDecode]
      cases h : decodeFields spec p with
      | error e => cases e <;> exact Or.inl rfl
      | ok us =>
          rcases dictUpdate_cases us d k with h1 | ⟨hm, v, hv⟩
          · exact Or.inl h1
          · exact Or.inr ⟨by rw [decodeFields_ok_keys spec p us h] at hm; exact hm, v, hv⟩

/-- On a decode failure the handler's data dict is the untouched prior dict,
the exception is re-raised exactly when it is not among the caught
`JSONDecodeError` / `ValueError`, and the handler logs exactly otherwise. -/
theorem handleStream_error (spec : List FieldSpec) (msg : Option (List (String × PyVal)))
    (d : DeviceState) (e : PyErr) (h : streamDecode spec msg = Except.error e) :
    (handleStream spec msg d).data = d ∧
      (handleStream spec msg d).raised = (if caughtByHandler e then none else some e) ∧
      (handleStream spec msg d).logged = caughtByHandler e := by
  simp only [handleStream, h]
  cases e <;> exact ⟨rfl, rfl, rfl⟩

/-- A mentioned key always ends up bound after the merge. -/
theorem lastLookup_isSome_of_mem : ∀ (us : List (String × PyVal)) (k : String),
    k ∈ us.map Prod.fst → ∃ v, lastLookup us k = some v := by
  intro us
  induction us with
  | nil => intro k h; exact absurd h (by simp)
  | cons kv rest ih =>
      intro k h
      simp only [List.map, List.mem_cons] at h
      show ∃ v, (match lastLookup rest k with
                 | some v => some v
                 | none => if kv.1 = k then some kv.2 else none) = some v
      cases hr : lastLookup rest k with
      | some v => exact ⟨v, rfl⟩
      | none =>
          rcases h with h1 | h2
          · exact ⟨kv.2, by rw [if_pos h1.symm]⟩
          · rcases ih k h2 with ⟨v, hv⟩
            rw [hv] at hr
            cases hr

/-- Merging a list that mentions `k` binds `k` to some value. -/
theorem dictUpdate_some_of_mem (us : List (String × PyVal)) (d : DeviceState) (k : String)
    (h : k ∈ us.map Prod.fst) : ∃ v, dictUpdate d us k = some v := by
  rw [dictUpdate_lookup]
  rcases lastLookup_isSome_of_mem us k h with ⟨v, hv⟩
  rw [hv]
  exact ⟨v, rfl⟩

/-- Turn a decidable list-inclusion check into a membership implication. -/
theorem mem_of_all_mem (l1 l2 : List String)
    (h : l1.all (fun x => decide (x ∈ l2)) = true) {k : String} (hk : k ∈ l1) : k ∈ l2 := by
  rw [List.all_eq_true] at h
  exact of_decide_eq_true (h k hk)

/-- A key outside the construction set is absent in the fresh snapshot. -/
theorem initData_none_of_notMem (k : String) (h : k ∉ initKeys) : initData k = none :=
  dictUpdate_notMem initFields emptyState k h

/-- Every key an event can write is a construction key or one of the three
power-only extras. -/
theorem opKeys_subset_allowed (op : Op) (k : String) (hk : k ∈ opKeys op) :
    k ∈ allowedKeys := by
  cases op with
  | status m => exact mem_of_all_mem (specKeys statusSpec) allowedKeys (by decide) hk
  | power m => exact mem_of_all_mem (specKeys powerSpec) allowedKeys (by decide) hk
  | statistics m => exact mem_of_all_mem (specKeys statisticsSpec) allowedKeys (by decide) hk
  | availability s => exact mem_of_all_mem ["available"] allowedKeys (by decide) hk
  | command c p => exact absurd hk (by simp [opKeys])

/-- One event either leaves a data key unchanged or writes one of its own keys
to some value. -/
theorem stepOp_data_cases (c : Coordinator) (op : Op) (k : String) :
    (stepOp c op).data k = c.data k ∨
      (k ∈ opKeys op ∧ ∃ v, (stepOp c op).data k = some v) := by
  cases op with
  | status m => exact handleStream_cases statusSpec m c.data k
  | power m => exact handleStream_cases powerSpec m c.data k
  | statistics m => exact handleStream_cases statisticsSpec m c.data k
  | availability s =>
      by_cases hk : k = "available"
      · subst hk
        refine Or.inr ⟨by simp [opKeys], PyVal.pyBool (decide (s = "online")), ?_⟩
        show setKey c.data "available" _ "available" = _
        simp [setKey]
      · refine Or.inl ?_
        show setKey c.data "available" _ k = c.data k
        simp [setKey, hk]
  | command a b => exact Or.inl rfl

/-- The key-set invariant is preserved by every event. -/
theorem stepOp_preserves_keys (c : Coordinator) (op : Op)
    (hc : ∀ k, (k ∈ initKeys → c.data k ≠ none) ∧ (c.data k ≠ none → k ∈ allowedKeys)) :
    ∀ k, (k ∈ initKeys → (stepOp c op).data k ≠ none) ∧
      ((stepOp c op).data k ≠ none → k ∈ allowedKeys) := by
  intro k
  rcases stepOp_data_cases c op k with h | ⟨hm, v, hv⟩
  · rw [h]; exact hc k
  · constructor
    · intro _; rw [hv]; simp
    · intro _; exact opKeys_subset_allowed op k hm

/-- The key-set invariant propagates along any event sequence. -/
theorem runOps_preserves_keys : ∀ (ops : List Op) (c : Coordinator),
    (∀ k, (k ∈ initKeys → c.data k ≠ none) ∧ (c.data k ≠ none → k ∈ allowedKeys)) →
    ∀ k, (k ∈ initKeys → (runOps c ops).data k ≠ none) ∧
      ((runOps c ops).data k ≠ none → k ∈ allowedKeys) := by
  intro ops
  induction ops with
  | nil => intro c hc; exact hc
  | cons op rest ih => intro c hc; exact ih (stepOp c op) (stepOp_preserves_keys c op hc)

/-- The fresh coordinator satisfies the key-set invariant. -/
theorem initCoordinator_keys :
    ∀ k, (k ∈ initKeys → initCoordinator.data k ≠ none) ∧
      (initCoordinator.data k ≠ none → k ∈ allowedKeys) := by
  intro k
  constructor
  · intro hk
    rcases dictUpdate_some_of_mem initFields emptyState k hk with ⟨v, hv⟩
    show initData k ≠ none
    rw [show initData k = dictUpdate emptyState initFields k from rfl, hv]
    simp
  · intro hne
    by_contra hna
    exact hne (initData_none_of_notMem k (fun hk => hna (List.mem_append_left _ hk)))

/-- The availability mirror survives one event. -/
theorem stepOp_avail_mirror (c : Coordinator) (op : Op)
    (hc : c.data "available" = some (PyVal.pyBool c.avail)) :
    (stepOp c op).data "available" = some (PyVal.pyBool (stepOp c op).avail) := by
  cases op with
  | status m =>
      show (handleStream statusSpec m c.data).data "available" = some (PyVal.pyBool c.avail)
      rw [handleStream_frame statusSpec m c.data "available" (by decide)]
      exact hc
  | power m =>
      show (handleStream powerSpec m c.data).data "available" = some (PyVal.pyBool c.avail)
      rw [handleStream_frame powerSpec m c.data "available" (by decide)]
      exact hc
  | statistics m =>
      show (handleStream statisticsSpec m c.data).data "available" = some (PyVal.pyBool c.avail)
      rw [handleStream_frame statisticsSpec m c.data "available" (by decide)]
      exact hc
  | availability s =>
      show (handleAvailabilityMessage s c).data "available" =
        some (PyVal.pyBool (handleAvailabilityMessage s c).avail)
      simp [handleAvailabilityMessage, setKey]
  | command a b => exact hc

/-- The availability mirror survives any event sequence. -/
theorem runOps_avail_mirror : ∀ (ops : List Op) (c : Coordinator),
    c.data "available" = some (PyVal.pyBool c.avail) →
    (runOps c ops).data "available" = some (PyVal.pyBool (runOps c ops).avail) := by
  intro ops
  induction ops with
  | nil => intro c hc; exact hc
  | cons op rest ih => intro c hc; exact ih (stepOp c op) (stepOp_avail_mirror c op hc)

/-! ## Claim theorems -/

/-- C1 counterexample: merging the scenario-1 status payload
`\x7b"state":"ready","brew_temp":92.1\x7d` into a snapshot whose brew setpoint
was 95.0 resets `brew_setpoint` to its per-field default 93.5 — the field is
absent from the payload yet does NOT retain its pre-merge value. -/
theorem status_merge_resets_brew_setpoint :
    priorState95 "brew_setpoint" = some (PyVal.pyFloat (mkRat 95 1)) ∧
      (handleStatusMessage scenarioStatusMsg priorState95).data "brew_setpoint" =
        some (PyVal.pyFloat (mkRat 935 10)) ∧
      (handleStatusMessage scenarioStatusMsg priorState95).data "brew_setpoint" ≠
        priorState95 "brew_setpoint" :=
  ⟨by decide, by decide, by decide⟩

/-- C1 (amended): after merging the status payload
`\x7b"state":"ready","brew_temp":92.1\x7d` into any prior snapshot, every key
NOT belonging to the status stream's update dict retains its pre-merge value,
`state` is `"ready"` and `brew_temp` is 92.1; but `brew_setpoint`, which the
status handler always writes via `payload.get("brew_setpoint", 93.5)`, is
reset to the default 93.5 regardless of its prior value. -/
theorem status_merge_scenario (d : DeviceState) (k : String)
    (hk : k ∉ specKeys statusSpec) :
    (handleStatusMessage scenarioStatusMsg d).data k = d k ∧
      (handleStatusMessage scenarioStatusMsg d).data "state" = some (PyVal.pyStr "ready") ∧
      (handleStatusMessage scenarioStatusMsg d).data "brew_temp" =
        some (PyVal.pyFloat (mkRat 921 10)) ∧
      (handleStatusMessage scenarioStatusMsg d).data "brew_setpoint" =
        some (PyVal.pyFloat (mkRat 935 10)) :=
  ⟨handleStream_frame statusSpec scenarioStatusMsg d k hk, rfl, rfl, rfl⟩

/-- C1 witness: the scenario merge at the concrete prior snapshot `initData`
and the non-status key `shots_today`. -/
theorem status_merge_scenario_witness :
    ("shots_today" ∉ specKeys statusSpec) ∧
      ((handleStatusMessage scenarioStatusMsg initData).data "shots_today" =
          initData "shots_today" ∧
        (handleStatusMessage scenarioStatusMsg initData).data "state" =
          some (PyVal.pyStr "ready") ∧
        (handleStatusMessage scenarioStatusMsg initData).data "brew_temp" =
          some (PyVal.pyFloat (mkRat 921 10)) ∧
        (handleStatusMessage scenarioStatusMsg initData).data "brew_setpoint" =
          some (PyVal.pyFloat (mkRat 935 10))) :=
  ⟨by decide, status_merge_scenario initData "shots_today" (by decide)⟩

/-- C2 counterexample: the status payload `\x7b"brew_temp": null\x7d` is a
present field not convertible to float, and its failure is NOT merely logged:
the `TypeError` from `float(None)` is outside the handler's
`except (json.JSONDecodeError, ValueError)` clause, so it propagates to the
caller (the snapshot is still left unchanged). -/
theorem status_decode_typeerror :
    (handleStatusMessage nullStatusMsg initData).raised = some PyErr.typeError ∧
      (handleStatusMessage nullStatusMsg initData).logged = false ∧
      (handleStatusMessage nullStatusMsg initData).data = initData :=
  ⟨by decide, by decide, rfl⟩

/-- C2 (amended): on any status decode failure the snapshot is left exactly as
it was; the failure is logged (and not raised) precisely when the exception is
one the handler catches — `JSONDecodeError` (malformed JSON) or `ValueError`
(e.g. a non-numeric string `brew_temp`); a `TypeError` (e.g. `brew_temp` is
JSON `null`) propagates to the caller instead of being logged. -/
theorem status_decode_failure (msg : Option (List (String × PyVal))) (d : DeviceState)
    (e : PyErr) (h : streamDecode statusSpec msg = Except.error e) :
    (handleStatusMessage msg d).data = d ∧
      (handleStatusMessage msg d).raised = (if caughtByHandler e then none else some e) ∧
      (handleStatusMessage msg d).logged = caughtByHandler e :=
  handleStream_error statusSpec msg d e h

/-- C2 witness: a non-numeric string `brew_temp` ("hot") raises `ValueError`;
the snapshot is unchanged and the error is logged, not raised. -/
theorem status_decode_failure_witness :
    streamDecode statusSpec nonNumericStatusMsg = Except.error PyErr.valueError ∧
      ((handleStatusMessage nonNumericStatusMsg initData).data = initData ∧
        (handleStatusMessage nonNumericStatusMsg initData).raised = none ∧
        (handleStatusMessage nonNumericStatusMsg initData).logged = true) :=
  ⟨rfl, status_decode_failure nonNumericStatusMsg initData PyErr.valueError rfl⟩

/-- C3 counterexample: `energy_import` is absent from the construction-time
data dict, yet a single power merge (even of the empty object `\x7b\x7d`)
introduces it — the snapshot's field set grows beyond the constructed set. -/
theorem power_merge_adds_field :
    initData "energy_import" = none ∧
      (runOps initCoordinator [Op.power (some [])]).data "energy_import" =
        some (PyVal.pyFloat (mkRat 0 1)) :=
  ⟨by decide, by decide⟩

/-- C3 (amended): after any sequence of status, power, statistics,
availability and command events, every construction-time field is still
present (fields are never lost), and the field set is contained in the
construction set extended by the three power-handler extras `energy_import`,
`frequency` and `power_factor`, which `__init__` does not initialize. -/
theorem snapshot_key_set (ops : List Op) (k : String) :
    (k ∈ initKeys → (runOps initCoordinator ops).data k ≠ none) ∧
      ((runOps initCoordinator ops).data k ≠ none →
        k ∈ initKeys ∨ k ∈ powerOnlyKeys) := by
  have h := runOps_preserves_keys ops initCoordinator initCoordinator_keys k
  exact ⟨h.1, fun hne => List.mem_append.mp (h.2 hne)⟩

/-- C3 witness: the construction key `brew_temp` is still present after a
power merge. -/
theorem snapshot_key_set_witness :
    ("brew_temp" ∈ initKeys) ∧
      (runOps initCoordinator [Op.power (some [])]).data "brew_temp" ≠ none :=
  ⟨by decide, (snapshot_key_set [Op.power (some [])] "brew_temp").1 (by decide)⟩

/-- C4: the heating-strategy codec is a bijection between the four names and
the codes 0–3: decoding then encoding is the identity on valid codes, and
encoding then decoding is the identity on valid names. -/
theorem strategy_codec_bijection :
    (∀ x : Int, x ∈ ([0, 1, 2, 3] : List Int) →
        strategyCodeOfName (strategyOptionOfCode x) = x) ∧
      (∀ n : String, n ∈ ["brew_only", "sequential", "parallel", "smart_stagger"] →
        strategyOptionOfCode (strategyCodeOfName n) = n) := by
  constructor
  · intro x hx
    simp only [List.mem_cons, List.not_mem_nil, or_false] at hx
    rcases hx with rfl | rfl | rfl | rfl <;> decide
  · intro n hn
    simp only [List.mem_cons, List.not_mem_nil, or_false] at hn
    rcases hn with rfl | rfl | rfl | rfl <;> decide

/-- C4 witness: the round trips at code 2 and name "parallel". -/
theorem strategy_codec_bijection_witness :
    strategyCodeOfName (strategyOptionOfCode 2) = 2 ∧
      strategyOptionOfCode (strategyCodeOfName "parallel") = "parallel" :=
  ⟨strategy_codec_bijection.1 2 (by decide),
    strategy_codec_bijection.2 "parallel" (by decide)⟩

/-- C5: a stored integer strategy code outside the known table yields the
derived option "sequential" rather than failing. -/
theorem unknown_strategy_code_defaults (d : DeviceState) (n : Int)
    (hd : d "heating_strategy" = some (PyVal.pyInt n))
    (hn : n ∉ ([0, 1, 2, 3] : List Int)) :
    currentStrategyOption d = PyVal.pyStr "sequential" := by
  have hv : strategyValueMap n = none := by
    simp only [List.mem_cons, List.not_mem_nil, or_false] at hn
    push_neg at hn
    simp [strategyValueMap, hn.1, hn.2.1, hn.2.2.1, hn.2.2.2]
  simp [currentStrategyOption, hd, strategyOptionOfCode, hv]

/-- C5 witness: with the unknown stored code 99 the derived option is
"sequential". -/
theorem unknown_strategy_code_defaults_witness :
    unknownStrategyState "heating_strategy" = some (PyVal.pyInt 99) ∧
      (99 : Int) ∉ ([0, 1, 2, 3] : List Int) ∧
      currentStrategyOption unknownStrategyState = PyVal.pyStr "sequential" :=
  ⟨by decide, by decide,
    unknown_strategy_code_defaults unknownStrategyState 99 (by decide) (by decide)⟩

/-- C6: the availability flag after an availability message is true exactly
when the payload is the exact string "online" (so "offline", "" and "ONLINE"
give false), and the flag is mirrored into the snapshot's `available` field. -/
theorem availability_exact_match (c : Coordinator) (payload : String) :
    (handleAvailabilityMessage payload c).avail = decide (payload = "online") ∧
      (handleAvailabilityMessage payload c).data "available" =
        some (PyVal.pyBool (handleAvailabilityMessage payload c).avail) ∧
      (handleAvailabilityMessage "online" c).avail = true ∧
      (handleAvailabilityMessage "offline" c).avail = false ∧
      (handleAvailabilityMessage "" c).avail = false ∧
      (handleAvailabilityMessage "ONLINE" c).avail = false :=
  ⟨rfl, rfl, rfl, rfl, rfl, rfl⟩

/-- C7: the derived `ready` value is true exactly when the snapshot's `state`
field is the string "ready", whatever the other fields hold. -/
theorem is_ready_iff_state_ready (d : DeviceState) :
    isReady d = decide (d "state" = some (PyVal.pyStr "ready")) := by
  cases h : d "state" with
  | none => simp [isReady, h]
  | some v =>
      cases v with
      | pyStr s =>
          by_cases hs : s = "ready"
          · simp [isReady, h, hs]
          · simp [isReady, h, hs]
      | pyNone => simp [isReady, h]
      | pyBool b => simp [isReady, h]
      | pyInt n => simp [isReady, h]
      | pyFloat q => simp [isReady, h]

/-- C8 counterexample: a parameter named `cmd` DOES override the command name
in the encoded body — in the Python dict literal
`\x7b"cmd": command, **kwargs\x7d` the later keyword argument wins, so the
command-name entry is not authoritative. -/
theorem cmd_key_collision :
    encodeCommand "set_mode" [("cmd", PyVal.pyStr "override")] "cmd" =
        some (PyVal.pyStr "override") ∧
      encodeCommand "set_mode" [("cmd", PyVal.pyStr "override")] "cmd" ≠
        some (PyVal.pyStr "set_mode") :=
  ⟨by decide, by decide⟩

/-- C8 (amended): the encoded body holds the command name under the reserved
`cmd` key whenever no parameter is named `cmd`; every parameter is merged at
top level (its last binding wins — in particular a parameter named `cmd`
overrides the command name); and the body holds nothing else. -/
theorem encode_command_body (command : String) (params : List (String × PyVal))
    (k : String) :
    (("cmd" : String) ∉ params.map Prod.fst →
        encodeCommand command params "cmd" = some (PyVal.pyStr command)) ∧
      (∀ v : PyVal, lastLookup params k = some v →
        encodeCommand command params k = some v) ∧
      (k ∉ params.map Prod.fst → k ≠ "cmd" → encodeCommand command params k = none) := by
  refine ⟨?_, ?_, ?_⟩
  · intro h
    rw [show encodeCommand command params "cmd" =
        dictUpdate (setKey emptyState "cmd" (PyVal.pyStr command)) params "cmd" from rfl,
      dictUpdate_notMem params _ "cmd" h]
    simp [setKey]
  · intro v hv
    rw [show encodeCommand command params k =
        dictUpdate (setKey emptyState "cmd" (PyVal.pyStr command)) params k from rfl,
      dictUpdate_lookup, hv]
    rfl
  · intro h hc
    rw [show encodeCommand command params k =
        dictUpdate (setKey emptyState "cmd" (PyVal.pyStr command)) params k from rfl,
      dictUpdate_notMem params _ k h]
    simp [setKey, emptyState, hc]

/-- C8 witness: a `set_temp` command with non-colliding parameters carries the
command name under `cmd` and the parameter `temp` at top level. -/
theorem encode_command_body_witness :
    encodeCommand "set_temp" tempParams "cmd" = some (PyVal.pyStr "set_temp") ∧
      encodeCommand "set_temp" tempParams "temp" = some (PyVal.pyFloat (mkRat 93 1)) :=
  ⟨(encode_command_body "set_temp" tempParams "temp").1 (by decide),
    (encode_command_body "set_temp" tempParams "temp").2.1 _ rfl⟩

/-- C9: selecting the "parallel" heating strategy publishes the body
`\x7b"cmd":"set_heating_strategy","strategy":2\x7d` on
`<prefix>/<device_id>/command` when the device id is non-empty, and in
general the topic router yields `prefix/suffix` for an empty device id. -/
theorem strategy_command_publish (pfx devId : String) (h : devId ≠ "") :
    (selectStrategyOption pfx devId "parallel").topic =
        pfx ++ "/" ++ devId ++ "/" ++ "command" ∧
      (selectStrategyOption pfx devId "parallel").body "cmd" =
        some (PyVal.pyStr "set_heating_strategy") ∧
      (selectStrategyOption pfx devId "parallel").body "strategy" =
        some (PyVal.pyInt 2) ∧
      ∀ sfx : String, buildTopic pfx "" sfx = pfx ++ "/" ++ sfx := by
  refine ⟨?_, rfl, rfl, fun sfx => by simp [buildTopic]⟩
  show buildTopic pfx devId "command" = _
  simp [buildTopic, h]

/-- C9 witness: the publish at prefix "brewos" and device id "machine1". -/
theorem strategy_command_publish_witness :
    (selectStrategyOption "brewos" "machine1" "parallel").topic =
        "brewos/machine1/command" ∧
      (selectStrategyOption "brewos" "machine1" "parallel").body "cmd" =
        some (PyVal.pyStr "set_heating_strategy") ∧
      (selectStrategyOption "brewos" "machine1" "parallel").body "strategy" =
        some (PyVal.pyInt 2) :=
  ⟨(strategy_command_publish "brewos" "machine1" (by decide)).1,
    (strategy_command_publish "brewos" "machine1" (by decide)).2.1,
    (strategy_command_publish "brewos" "machine1" (by decide)).2.2.1⟩

/-- C10: the dedicated availability flag and the snapshot's `available` field
are both false at construction and stay equal after every sequence of events:
only the availability handler writes them, and it writes the same boolean to
both. -/
theorem availability_mirror_invariant (ops : List Op) :
    initCoordinator.avail = false ∧
      initData "available" = some (PyVal.pyBool false) ∧
      (runOps initCoordinator ops).data "available" =
        some (PyVal.pyBool (runOps initCoordinator ops).avail) :=
  ⟨rfl, by decide, runOps_avail_mirror ops initCoordinator (by decide)⟩
